import Mathlib

/-!
Verification development for the seraphic JSON-RPC transport library.

Shallow embedding of the core of the crate:
* `src/packet.rs`   — length-prefixed packet codec (`TcpPacket`)
* `src/msg.rs`      — envelope types and the typed `Message` deserialization policy
* `src/error.rs`    — error model (`Error`, `ErrorCode`, `ErrorKind`)
* `src/lib.rs`      — `RpcRequest::try_from_request`, `RpcResponse::try_from_response`
* `src/server.rs`   — server-side initialization loop (one iteration)
* `src/connection/mod.rs` — `Connection::handle_shutdown`
* `src/connection/io/mod.rs`, `src/client.rs` — reader worker loop bodies

Machine integers are modelled as `Nat` with explicit bounds where overflow
matters; fallible code returns `Option`/`Except`; panics (`unwrap`, `assert!`,
`expect`) are modelled as explicit outcomes where a claim is about them.
-/

namespace Seraphic

/-- JSON values as produced by serde_json, with numbers restricted to
integers (every value this development evaluates is integral; the crate's
error codes and envelopes never require fractional numbers). -/
inductive Json where
  | null
  | bool (b : Bool)
  | int (n : Int)
  | str (s : String)
  | arr (xs : List Json)
  | obj (fields : List (String × Json))

/-! ## Byte stream model

`TcpPacket::read` takes a `dyn BufRead` over a non-blocking socket.  We model
the source as the list of bytes available now plus what the source reports
once those run out: end-of-stream (`eof`) or a non-fatal would-block. -/

/-- What the byte source reports after its available bytes are exhausted. -/
inductive ReadEnd where
  | eof
  | wouldBlock
  deriving DecidableEq

/-- A readable byte source: the bytes available, then `ending`. -/
structure ByteSource where
  data : List Nat
  ending : ReadEnd
  deriving DecidableEq

/-- Outcome of `std::io::Read::read_exact` into a zero-initialized buffer of
size `n`: either the full `n` bytes, or `UnexpectedEof` (the buffer keeps the
prefix that was read, the rest stays zero), or `WouldBlock`. -/
inductive ReadExactResult where
  | ok (bytes : List Nat) (rest : ByteSource)
  | eofErr (buf : List Nat)
  | blockErr
  deriving DecidableEq

/-- Model of `read_exact(&mut buf)` for a buffer of length `n`. -/
def readExact (n : Nat) (s : ByteSource) : ReadExactResult :=
  if n ≤ s.data.length then
    .ok (s.data.take n) ⟨s.data.drop n, s.ending⟩
  else
    match s.ending with
    | .wouldBlock => .blockErr
    | .eof => .eofErr (s.data ++ List.replicate (n - s.data.length) 0)

/-- `header_size()` in packet.rs: `size_of::<u32>() = 4` bytes. -/
def headerSize : Nat := 4

/-- `u32::to_le_bytes` of a length that fits in 32 bits. -/
def toLeBytes (n : Nat) : List Nat :=
  [n % 256, n / 256 % 256, n / 65536 % 256, n / 16777216 % 256]

/-- `u32::from_le_bytes` on a 4-byte header (any other shape is unreachable
for a filled header buffer and maps to 0). -/
def fromLeBytes : List Nat → Nat
  | [b0, b1, b2, b3] => b0 + 256 * b1 + 65536 * b2 + 16777216 * b3
  | _ => 0

/-- `TcpPacket::from(&T)` from packet.rs: serialize the value (the serializer
`ser` stands for `serde_json::to_vec`), assert the length fits the `u32`
header (`none` models the `assert!` aborting), and prepend the little-endian
length. -/
def tcpPacketFrom {T : Type} (ser : T → List Nat) (t : T) : Option (List Nat) :=
  let v := ser t
  if v.length ≤ 2 ^ 32 - 1 then some (toLeBytes v.length ++ v) else none

/-- `TcpPacket::write` writes exactly the buffer built by `TcpPacket::from`
(`write_all` then `flush`), so the bytes put on the wire are the same. -/
def tcpPacketWrite {T : Type} (ser : T → List Nat) (t : T) : Option (List Nat) :=
  tcpPacketFrom ser t

/-- Result of `TcpPacket::read`, whose Rust type is `io::Result<Option<T>>`:
a decoded value (with the rest of the source), `Ok(None)`, or a fatal error.
The remaining source is only observable on the success path (the reader keeps
reading from the same stream). -/
inductive TcpReadResult (T : Type) where
  | okSome (t : T) (rest : ByteSource)
  | okNone
  | ioErr (msg : String)

/-- `TcpPacket::read` from packet.rs: read exactly 4 header bytes; on
`UnexpectedEof` with the header buffer still all zeros return `Ok(None)`; on
`WouldBlock` return `Ok(None)`; on any other error fail.  Then read exactly
`size` payload bytes; `WouldBlock` returns `Ok(None)`, any other error fails,
and a payload that does not deserialize (`de` stands for
`serde_json::from_slice`) is a fatal error. -/
def tcpPacketRead {T : Type} (de : List Nat → Option T) (s : ByteSource) :
    TcpReadResult T :=
  match readExact headerSize s with
  | .ok hdr s1 =>
    let size := fromLeBytes hdr
    match readExact size s1 with
    | .ok payload s2 =>
      match de payload with
      | some t => .okSome t s2
      | none => .ioErr "malformed payload"
    | .blockErr => .okNone
    | .eofErr _ => .ioErr "unexpected error when reading payload"
  | .eofErr buf =>
    if buf = List.replicate headerSize 0 then .okNone
    else .ioErr "unexpected error when reading header"
  | .blockErr => .okNone

/-- Encoding a whole sequence of values with the codec, concatenating the
frames in order (what a writer emits onto one stream). -/
def encodeSeq {T : Type} (ser : T → List Nat) : List T → Option (List Nat)
  | [] => some []
  | t :: ts =>
    match tcpPacketFrom ser t, encodeSeq ser ts with
    | some b, some bs => some (b ++ bs)
    | _, _ => none

/-- Reading `k` packets in order with `TcpPacket::read`; `none` as soon as a
read does not produce a message. -/
def tcpReadSeq {T : Type} (de : List Nat → Option T) :
    Nat → ByteSource → Option (List T × ByteSource)
  | 0, s => some ([], s)
  | Nat.succ k, s =>
    match tcpPacketRead de s with
    | .okSome t s1 => (tcpReadSeq de k s1).map (fun p => (t :: p.1, p.2))
    | _ => none

/-- Concrete payload codec used to witness the generic theorems: the
serde_json encoding of `bool` (the ASCII bytes of `true` / `false`). -/
def serBool : Bool → List Nat
  | true => [116, 114, 117, 101]
  | false => [102, 97, 108, 115, 101]

/-- Decoder matching `serBool` (what `serde_json::from_slice::<bool>` accepts
on exactly those payloads). -/
def deBool (l : List Nat) : Option Bool :=
  if l = serBool true then some true
  else if l = serBool false then some false
  else none

/-! ## Error model (src/error.rs) and envelopes (src/msg.rs) -/

/-- `ErrorCode` from error.rs, a unit-variant enum with explicit
discriminants. -/
inductive ErrorCode where
  | parseError
  | invalidRequest
  | methodNotFound
  | invalidParams
  | internalError
  | serverErrorStart
  | serverErrorEnd
  | disconnect
  deriving DecidableEq

/-- Discriminant values declared in the source
(`ParseError = -32700`, ..., `Disconnect = -29900`). -/
def ErrorCode.discriminant : ErrorCode → Int
  | .parseError => -32700
  | .invalidRequest => -32600
  | .methodNotFound => -32601
  | .invalidParams => -32602
  | .internalError => -32603
  | .serverErrorStart => -32099
  | .serverErrorEnd => -32000
  | .disconnect => -29900

/-- Variant names as the Rust source spells them. -/
def ErrorCode.variantName : ErrorCode → String
  | .parseError => "ParseError"
  | .invalidRequest => "InvalidRequest"
  | .methodNotFound => "MethodNotFound"
  | .invalidParams => "InvalidParams"
  | .internalError => "InternalError"
  | .serverErrorStart => "ServerErrorStart"
  | .serverErrorEnd => "ServerErrorEnd"
  | .disconnect => "Disconnect"

/-- serde_json serialization of `ErrorCode`: the plain `#[derive(Serialize)]`
on a unit-variant enum emits the variant NAME as a JSON string; the declared
integer discriminants are not used by serde. -/
def ErrorCode.toJson (c : ErrorCode) : Json := .str c.variantName

/-- `Error` from error.rs: `{ code, message, data }`. -/
structure Error where
  code : ErrorCode
  message : String
  data : Option Json

/-- serde_json serialization of `Error` (derived): an object with the three
fields in declaration order; the `Option` field serializes `None` as
`null`. -/
def Error.toJson (e : Error) : Json :=
  .obj [("code", e.code.toJson), ("message", .str e.message),
    ("data", e.data.getD .null)]

/-- `ErrorKind` from error.rs. -/
inductive ErrorKind where
  | other (str : String) (code : ErrorCode)
  | disconnect
  | uninitialized (json : Json)

/-- `impl Into<Error> for ErrorKind` from error.rs: each kind flattens to an
`Error` with a fixed message, `Uninitialized` embedding the offending
payload as `data`. -/
def ErrorKind.intoError : ErrorKind → Error
  | .other s c => ⟨c, s, none⟩
  | .disconnect => ⟨.disconnect, "disconnected channel", none⟩
  | .uninitialized j => ⟨.serverErrorStart, "uninitialized channel", some j⟩

/-- `Request` from msg.rs: `jsonrpc`, `method`, `params`, `id` (all
required; `id` is a string in this system). -/
structure Request where
  jsonrpc : String
  method : String
  params : Json
  id : String

/-- `Response` from msg.rs: `jsonrpc`, optional `result`, optional `error`,
`id`. -/
structure Response where
  jsonrpc : String
  result : Option Json
  error : Option Error
  id : String

/-- `Response::from_error` from msg.rs. -/
def Response.fromError (id : String) (e : Error) : Response :=
  ⟨"2.0", none, some e, id⟩

/-- Field lookup in a JSON object (first occurrence, as after serde_json has
built the map). -/
def lookupField : List (String × Json) → String → Option Json
  | [], _ => none
  | (k, v) :: rest, key => if k = key then some v else lookupField rest key

/-- Object member access used by the deserializers. -/
def Json.getField? : Json → String → Option Json
  | .obj fields, key => lookupField fields key
  | _, _ => none

def Json.asStr? : Json → Option String
  | .str s => some s
  | _ => none

/-- serde_json serialization of `Request` (derived struct). -/
def Request.toJson (r : Request) : Json :=
  .obj [("jsonrpc", .str r.jsonrpc), ("method", .str r.method),
    ("params", r.params), ("id", .str r.id)]

/-- serde_json serialization of `Response` (derived struct); `None` options
serialize as `null`. -/
def Response.toJson (r : Response) : Json :=
  .obj [("jsonrpc", .str r.jsonrpc), ("result", r.result.getD .null),
    ("error", (r.error.map Error.toJson).getD .null), ("id", .str r.id)]

/-- Derived deserialization of `Request` from a JSON value
(`serde_json::from_value::<Request>`): all four fields required (`params`
accepts any JSON value, including null), unknown fields ignored. -/
def Request.fromJson? (j : Json) : Option Request := do
  let jsonrpc ← (← j.getField? "jsonrpc").asStr?
  let methodStr ← (← j.getField? "method").asStr?
  let params ← j.getField? "params"
  let id ← (← j.getField? "id").asStr?
  pure ⟨jsonrpc, methodStr, params, id⟩

/-- Derived deserialization of `ErrorCode`: a JSON string holding a variant
name. -/
def ErrorCode.fromJson? : Json → Option ErrorCode
  | .str "ParseError" => some .parseError
  | .str "InvalidRequest" => some .invalidRequest
  | .str "MethodNotFound" => some .methodNotFound
  | .str "InvalidParams" => some .invalidParams
  | .str "InternalError" => some .internalError
  | .str "ServerErrorStart" => some .serverErrorStart
  | .str "ServerErrorEnd" => some .serverErrorEnd
  | .str "Disconnect" => some .disconnect
  | _ => none

/-- Derived deserialization of `Error`: `code` and `message` required,
`data` an optional member (absent or null ↦ `None`). -/
def Error.fromJson? (j : Json) : Option Error := do
  let code ← ErrorCode.fromJson? (← j.getField? "code")
  let message ← (← j.getField? "message").asStr?
  let data : Option Json :=
    match j.getField? "data" with
    | none => none
    | some .null => none
    | some v => some v
  pure ⟨code, message, data⟩

/-- Derived deserialization of `Response`: `jsonrpc` and `id` required
strings; `result`/`error` are `Option` fields, so a missing or null member
reads back as `None`, and a present `error` must itself deserialize. -/
def Response.fromJson? (j : Json) : Option Response := do
  let jsonrpc ← (← j.getField? "jsonrpc").asStr?
  let result : Option Json :=
    match j.getField? "result" with
    | none => none
    | some .null => none
    | some v => some v
  let error ← (match j.getField? "error" with
    | none => some none
    | some .null => some none
    | some v => (Error.fromJson? v).map some)
  let id ← (← j.getField? "id").asStr?
  pure ⟨jsonrpc, result, error, id⟩

/-- Typed `Message<Rq, Rs>` from msg.rs (the vintage exported by lib.rs):
struct variants carrying the envelope id and the consumer wrapper value. -/
inductive Message (Rq Rs : Type) where
  | req (id : String) (rq : Rq)
  | res (id : String) (rs : Rs)
  | err (id : String) (e : Error)

/-- `impl Deserialize for Message` from msg.rs: parse a JSON value; attempt
`Request` decoding FIRST (a `Response` could false-positive otherwise); on
success route through the request wrapper (`Rq::try_from_req`; its failure
fails the whole deserialization, there is no fallthrough).  Only if `Request`
decoding fails attempt `Response` decoding and route through
`Rs::try_from_res`, whose inner `Err` becomes `Message::Err` and inner `Ok`
becomes `Message::Res`.  If neither envelope decodes, fail as malformed. -/
def messageDeserialize {Rq Rs : Type} (tryFromReq : Request → Option Rq)
    (tryFromRes : Response → Option (Except Error Rs)) (j : Json) :
    Option (Message Rq Rs) :=
  match Request.fromJson? j with
  | some req => (tryFromReq req).map (fun rq => .req req.id rq)
  | none =>
    match Response.fromJson? j with
    | some res =>
      match tryFromRes res with
      | some (.ok rs) => some (.res res.id rs)
      | some (.error e) => some (.err res.id e)
      | none => none
    | none => none

/-- `IdentifiedResponse` as constructed by `RpcResponse::into_response` in
lib.rs: the wrapper identity tag together with the `Response` envelope (the
struct's defining module is re-exported but not under src/; the fields are
fixed by its uses in lib.rs). -/
structure IdentifiedResponse where
  id : String
  res : Response

/-- Outcome of `RpcResponse::try_from_response`: the outer `Err` (identity
mismatch), the inner `Err` (the response carried an `error`), the decoded
response, or the `expect` panic when a carried `result` fails to
deserialize. -/
inductive RpcResOutcome (Rs : Type) where
  | ok (rs : Rs)
  | appErr (e : Error)
  | identityErr
  | panicked

/-- `RpcResponse::try_from_response` from lib.rs: fail when the identity tag
differs from `IDENTITY`; short-circuit a carried `error` into the inner
`Err`; otherwise deserialize `result` (defaulting to the empty JSON object
when absent), panicking (`expect`) if that fails. -/
def rpcTryFromResponse {Rs : Type} (identity : String)
    (deRs : Json → Option Rs) (r : IdentifiedResponse) : RpcResOutcome Rs :=
  if r.id = identity then
    match r.res.error with
    | some e => .appErr e
    | none =>
      match deRs (r.res.result.getD (Json.obj [])) with
      | some rs => .ok rs
      | none => .panicked
  else .identityErr

/-! ## Concrete message union and protocol helpers

server.rs, client.rs and connection/ use a concrete `Message` enum with
`Req(Request)`, `Res(Response)`, `Err`, `Shutdown(bool)` and `Exit`
variants; its defining module is not under src/ (src/src/msg.rs holds the
newer generic vintage), so the type is modelled from the spec (§3). -/

/-- Modelled from the spec: the concrete top-level `Message` union used by
server.rs, client.rs and connection/mod.rs — a tagged union of five
variants `Req`, `Res`, `Err`, `Shutdown(bool)`, `Exit` (spec §3); its
defining module is missing from src/. -/
inductive Msg where
  | req (r : Request)
  | res (r : Response)
  | err (id : String) (e : Error)
  | shutdown (b : Bool)
  | exitMsg

/-- `matches!(msg, Message::Exit)`. -/
def Msg.isExit : Msg → Bool
  | .exitMsg => true
  | _ => false

/-- Modelled from the spec (§4.2, §6): serialization of the concrete
`Message`.  `Req`/`Res` serialize as their envelopes and `Err` as a
`Response` carrying the error; `Shutdown`/`Exit` serialize as reserved
requests with a library-reserved method name and empty params (the reserved
method strings themselves are not fixed by anything under src/ and are
placeholders here). -/
def Msg.toJson : Msg → Json
  | .req r => r.toJson
  | .res r => r.toJson
  | .err id e => (Response.fromError id e).toJson
  | .shutdown b =>
    Request.toJson ⟨"2.0", if b then "seraphic_shutdown_ack" else "seraphic_shutdown",
      .obj [], ""⟩
  | .exitMsg => Request.toJson ⟨"2.0", "seraphic_exit", .obj [], ""⟩

/-- Outcome of one `crossbeam_channel::Receiver::recv_timeout` call. -/
inductive RecvOutcome (α : Type) where
  | received (a : α)
  | timeout
  | disconnected

/-- Result of one iteration of the `while running()` loop in
`ServerConnection::initialize_start_while` (server.rs): return with the
captured request, return with an error, or continue looping (having sent at
most one response). -/
inductive InitStepResult where
  | retOk (r : Request)
  | retErr (e : Error)
  | continueLoop (sent : Option Response)

def InitStepResult.isContinue : InitStepResult → Bool
  | .continueLoop _ => true
  | _ => false

/-- One iteration of `ServerConnection::initialize_start_while` (server.rs
lines 238–268), given the outcome of the 1-second `recv_timeout` and the
connection's `I::matches` predicate on requests: a timeout continues; a
disconnected queue returns the `Disconnect` error; a matching request is
returned; any other request is answered with an `Uninitialized` error
response (data = the serialized offending message, id = the request's id)
and the loop continues; any non-request message returns a
`ServerErrorStart` error (the source appends the Debug rendering of the
message to the text). -/
def initializeStartStep (matchesReq : Request → Bool)
    (r : RecvOutcome Msg) : InitStepResult :=
  match r with
  | .timeout => .continueLoop none
  | .disconnected => .retErr ErrorKind.disconnect.intoError
  | .received m =>
    match m with
    | .req rq =>
      if matchesReq rq then .retOk rq
      else
        .continueLoop (some (Response.fromError rq.id
          (ErrorKind.uninitialized (Msg.req rq).toJson).intoError))
    | _ =>
      .retErr (ErrorKind.other "expected initialize request" .serverErrorStart).intoError

/-- Environment for one `Connection::handle_shutdown` call: whether sends on
the outbound queue succeed, and what the 30-second `recv_timeout` on the
inbound queue produces (consulted only on `Shutdown(false)`). -/
structure ShutdownEnv where
  sendOk : Bool
  recv : RecvOutcome Msg

/-- `Connection::handle_shutdown` from connection/mod.rs, returning the
`Result<bool, Error>` together with the messages sent on the outbound queue,
in order.  `Shutdown(true)`: send `Exit`, return `Ok(true)` (no receive).
`Shutdown(false)`: send `Shutdown(true)`, then block up to 30 s for `Exit` —
`Exit` yields `Ok(true)`, any other message, a timeout, or a disconnect
yields a `ServerErrorEnd` error.  Any other message: `Ok(false)`.  A failed
send yields an `InternalError` error (the source formats the send error into
the text). -/
def handleShutdown (env : ShutdownEnv) (message : Msg) :
    (Except Error Bool) × List Msg :=
  match message with
  | .shutdown true =>
    if env.sendOk then (.ok true, [.exitMsg])
    else (.error (ErrorKind.other "failed to send exit message" .internalError).intoError, [])
  | .shutdown false =>
    if env.sendOk then
      match env.recv with
      | .received .exitMsg => (.ok true, [.shutdown true])
      | .received _ =>
        (.error (ErrorKind.other "unexpected message during shutdown" .serverErrorEnd).intoError,
          [.shutdown true])
      | .timeout =>
        (.error (ErrorKind.other "timed out waiting for exit notification" .serverErrorEnd).intoError,
          [.shutdown true])
      | .disconnected =>
        (.error (ErrorKind.other "channel disconnected waiting for exit notification" .serverErrorEnd).intoError,
          [.shutdown true])
    else (.error (ErrorKind.other "failed to send exit message" .internalError).intoError, [])
  | _ => (.ok false, [])

/-! ## Reader worker loop bodies (connection/io/mod.rs and client.rs) -/

/-- What one `MessagePacket::read` call produced, as seen by the reader
loop: a fatal decode/IO error, `Ok(None)`, or `Ok(Some(msg))`. -/
inductive PacketReadOutcome where
  | fatal (e : String)
  | okNone
  | okSome (m : Msg)

/-- What one reader-loop iteration does: panic (an `unwrap` fired), keep
looping (with the shutdown flag possibly now set and at most one message
pushed into the inbound queue), or return — `returnedErr` (returning the
error to the joiner) is expressible but, as proved below, never produced. -/
inductive ReaderStepResult where
  | panicked
  | looped (flagAfter : Bool) (pushed : Option Msg)
  | returnedErr (e : String)

/-- One iteration of the reader loop in `make_reader`
(connection/io/mod.rs lines 69–83), entered with the shutdown flag unset:
`MessagePacket::read(..).unwrap()` panics on a decode error; `Ok(None)`
just loops; `Ok(Some(msg))` sets the shutdown flag iff the message is
`Exit`, then pushes the message (the blocking `send(..).unwrap()` is taken
to succeed). -/
def makeReaderStep : PacketReadOutcome → ReaderStepResult
  | .fatal _ => .panicked
  | .okNone => .looped false none
  | .okSome m => .looped m.isExit (some m)

/-- One iteration of `ClientConnection::reader_thread_logic` (client.rs
lines 42–47): same shape as `makeReaderStep` but with no `Exit` check at
all, so the flag is never set by the reader. -/
def clientReaderStep : PacketReadOutcome → ReaderStepResult
  | .fatal _ => .panicked
  | .okNone => .looped false none
  | .okSome m => .looped false (some m)

/-! ## `RpcRequest::try_from_request` (src/lib.rs) -/

/-- Rust `str::split_once` on character lists: split around the first
occurrence of the delimiter. -/
def splitOnceList (sep : List Char) : List Char → Option (List Char × List Char)
  | [] => if sep = [] then some ([], []) else none
  | c :: rest =>
    if sep.isPrefixOf (c :: rest) then some ([], (c :: rest).drop sep.length)
    else (splitOnceList sep rest).map (fun p => (c :: p.1, p.2))

/-- Rust `str::split_once`. -/
def splitOnce (sep s : String) : Option (String × String) :=
  (splitOnceList sep.toList s.toList).map (fun p => (⟨p.1⟩, ⟨p.2⟩))

/-- Outcome of `RpcRequest::try_from_request`: success, an `Err` return, or
a panic (the `.unwrap()` on `Namespace::try_from_str`). -/
inductive TryFromRequestOutcome (T : Type) where
  | ok (t : T)
  | errReturn (msg : String)
  | panicked
  deriving DecidableEq

def TryFromRequestOutcome.isErrReturn {T : Type} :
    TryFromRequestOutcome T → Bool
  | .errReturn _ => true
  | _ => false

/-- `RpcRequest::try_from_request` from lib.rs (lines 98–116), with the
trait's associated items as parameters: split the method on `SEPARATOR`; if
it splits, `Namespace::try_from_str(prefix).unwrap()` (panic on `None`);
error when namespace or method mismatch; otherwise the result of
`try_from_json` on the params (its failure is an error return); when the
method does not split, error. -/
def rpcTryFromRequest {NS T : Type} [DecidableEq NS] (sep : String)
    (nsTryFromStr : String → Option NS) (nsSelf : NS) (methodSelf : String)
    (tryFromJson : Json → Option T) (req : Request) :
    TryFromRequestOutcome T :=
  match splitOnce sep req.method with
  | some (nsStr, methodStr) =>
    match nsTryFromStr nsStr with
    | none => .panicked
    | some ns =>
      if ns ≠ nsSelf ∨ methodStr ≠ methodSelf then
        .errReturn "namespace & method do not match expected"
      else
        match tryFromJson req.params with
        | some t => .ok t
        | none => .errReturn "try_from_json failed"
  | none => .errReturn "Request method could not be split by separator"

/-- Whether a JSON value is an integer (used to inspect the serialized
`code` member). -/
def Json.isIntVal : Json → Bool
  | .int _ => true
  | _ => false

def ReaderStepResult.isReturnedErr : ReaderStepResult → Bool
  | .returnedErr _ => true
  | _ => false

/-- Degenerate request wrapper used to witness the deserialization policy
theorem: accepts every request. -/
def unitTryFromReq : Request → Option Unit := fun _ => some ()

/-- Degenerate response wrapper used to witness the deserialization policy
theorem: splits on the carried `error`, as `try_from_response` does. -/
def unitTryFromRes : Response → Option (Except Error Unit) := fun res =>
  match res.error with
  | some e => some (.error e)
  | none => some (.ok ())

theorem toLeBytes_length (n : Nat) : (toLeBytes n).length = 4 := rfl

theorem fromLeBytes_toLeBytes (n : Nat) (h : n < 2 ^ 32) :
    fromLeBytes (toLeBytes n) = n := by
  simp only [toLeBytes, fromLeBytes]
  omega

/-- Reading one well-formed frame consumes exactly the frame and returns the
payload's value, leaving the source at the next frame boundary. -/
theorem tcpPacketRead_frame {T : Type} (de : List Nat → Option T)
    (payload rest : List Nat) (e : ReadEnd) (t : T)
    (hde : de payload = some t) (hlen : payload.length ≤ 2 ^ 32 - 1) :
    tcpPacketRead de ⟨toLeBytes payload.length ++ (payload ++ rest), e⟩ =
      .okSome t ⟨rest, e⟩ := by
  have hlt : payload.length < 2 ^ 32 := by omega
  unfold tcpPacketRead
  have h4 : headerSize ≤ (toLeBytes payload.length ++ (payload ++ rest)).length := by
    simp [toLeBytes, headerSize]
  have htake : (toLeBytes payload.length ++ (payload ++ rest)).take headerSize =
      toLeBytes payload.length :=
    List.take_left (toLeBytes payload.length) (payload ++ rest)
  have hdrop : (toLeBytes payload.length ++ (payload ++ rest)).drop headerSize =
      payload ++ rest :=
    List.drop_left (toLeBytes payload.length) (payload ++ rest)
  rw [readExact, if_pos h4, htake, hdrop]
  simp only [fromLeBytes_toLeBytes _ hlt]
  have h2 : payload.length ≤ (payload ++ rest).length := by
    simp
  rw [readExact]
  rw [if_pos h2, List.take_left, List.drop_left]
  simp [hde]

/-- Sequence round-trip, generalized over a trailing suffix for the
induction: decoding `ts.length` frames from the concatenated encoding of
`ts` followed by `rest` yields `ts` and leaves `rest`. -/
theorem tcpReadSeq_encodeSeq {T : Type} (ser : T → List Nat)
    (de : List Nat → Option T) (hde : ∀ t, de (ser t) = some t) :
    ∀ (ts : List T) (buf : List Nat), encodeSeq ser ts = some buf →
      ∀ (rest : List Nat) (e : ReadEnd),
        tcpReadSeq de ts.length ⟨buf ++ rest, e⟩ = some (ts, ⟨rest, e⟩)
  | [], buf, henc, rest, e => by
    simp only [encodeSeq, Option.some.injEq] at henc
    subst henc
    simp [tcpReadSeq]
  | t :: ts, buf, henc, rest, e => by
    simp only [encodeSeq] at henc
    rcases hb : tcpPacketFrom ser t with _ | b <;> rw [hb] at henc
    · exact absurd henc (by simp)
    rcases hbs : encodeSeq ser ts with _ | bs <;> rw [hbs] at henc
    · exact absurd henc (by simp)
    simp only [Option.some.injEq] at henc
    subst henc
    by_cases hlen : (ser t).length ≤ 2 ^ 32 - 1
    · simp only [tcpPacketFrom, if_pos hlen, Option.some.injEq] at hb
      subst hb
      simp only [tcpReadSeq, List.length_cons]
      rw [List.append_assoc, List.append_assoc,
        tcpPacketRead_frame de (ser t) (bs ++ rest) e t (hde t) hlen]
      simp [tcpReadSeq_encodeSeq ser de hde ts bs hbs rest e]
    · simp only [tcpPacketFrom, if_neg hlen] at hb
      exact Option.noConfusion hb


/-- C1: encoding any finite sequence of values with `TcpPacket::from` /
`TcpPacket::write` and decoding the resulting byte stream in order with
`TcpPacket::read` yields the original values in order, each decode returning
`Ok(Some _)`; `ser`/`de` stand for the payload's serde instance, assumed to
round-trip (that is what makes the value JSON-serializable). -/
theorem c1_codec_roundtrip {T : Type} (ser : T → List Nat)
    (de : List Nat → Option T) (hde : ∀ t, de (ser t) = some t)
    (ts : List T) (buf : List Nat) (henc : encodeSeq ser ts = some buf)
    (e : ReadEnd) :
    tcpReadSeq de ts.length ⟨buf, e⟩ = some (ts, ⟨[], e⟩) := by
  have := tcpReadSeq_encodeSeq ser de hde ts buf henc [] e
  simpa using this

theorem c1_codec_roundtrip_witness :
    tcpReadSeq deBool 2 ⟨[4, 0, 0, 0, 116, 114, 117, 101,
        5, 0, 0, 0, 102, 97, 108, 115, 101], .eof⟩ =
      some ([true, false], ⟨[], .eof⟩) := by
  have h := c1_codec_roundtrip serBool deBool (by decide) [true, false]
    [4, 0, 0, 0, 116, 114, 117, 101, 5, 0, 0, 0, 102, 97, 108, 115, 101]
    (by decide) .eof
  simpa using h

/-- C2: for a value whose serialization has `N ≤ 2^32 - 1` bytes, a single
encode produces exactly the 4-byte little-endian header of `N` followed by
the `N` payload bytes (`4 + N` bytes in all), and a single successful decode
consumes exactly those `4 + N` bytes, leaving the reader at the next frame
boundary. -/
theorem c2_frame_layout {T : Type} (ser : T → List Nat)
    (de : List Nat → Option T) (t : T) (N : Nat)
    (hN : (ser t).length = N) (hbound : N ≤ 2 ^ 32 - 1)
    (hde : de (ser t) = some t) :
    tcpPacketFrom ser t = some (toLeBytes N ++ ser t) ∧
      (toLeBytes N).length = 4 ∧
      (toLeBytes N ++ ser t).length = 4 + N ∧
      ∀ (rest : List Nat) (e : ReadEnd),
        tcpPacketRead de ⟨(toLeBytes N ++ ser t) ++ rest, e⟩ =
          .okSome t ⟨rest, e⟩ := by
  subst hN
  refine ⟨by simp only [tcpPacketFrom, if_pos hbound], rfl,
    by simp [toLeBytes]; omega, ?_⟩
  intro rest e
  rw [List.append_assoc]
  exact tcpPacketRead_frame de (ser t) rest e t hde hbound

theorem c2_frame_layout_witness :
    tcpPacketFrom serBool true = some [4, 0, 0, 0, 116, 114, 117, 101] ∧
      tcpPacketRead deBool ⟨[4, 0, 0, 0, 116, 114, 117, 101], .eof⟩ =
        .okSome true ⟨[], .eof⟩ := by
  have h := c2_frame_layout serBool deBool true 4 (by decide) (by decide)
    (by decide)
  refine ⟨by simpa [toLeBytes] using h.1, ?_⟩
  have h4 := h.2.2.2 [] .eof
  simpa [toLeBytes] using h4

/-- C3 counterexample: `TcpPacket::read` does not distinguish `Disconnected`
from `Empty`.  A clean end-of-stream at a packet boundary and a non-fatal
would-block produce the identical outcome `Ok(None)` (the Rust return type
`io::Result<Option<T>>` has no third alternative). -/
theorem c3_empty_eq_disconnected :
    tcpPacketRead deBool ⟨[], .eof⟩ = tcpPacketRead deBool ⟨[], .wouldBlock⟩ ∧
      tcpPacketRead deBool ⟨[], .eof⟩ = .okNone := by
  constructor <;> rfl

/-- C3 amended: the decoder's three-way distinction is `Ok(Some t)` for a
full decoded frame, `Ok(None)` — covering both a clean end-of-stream with the
header buffer untouched AND a would-block before the header AND a would-block
after the header has already been consumed — and a fatal error for malformed
payloads. -/
theorem c3_amended_outcomes {T : Type} (de : List Nat → Option T) :
    tcpPacketRead de ⟨[], .eof⟩ = .okNone ∧
      tcpPacketRead de ⟨[], .wouldBlock⟩ = .okNone ∧
      (∀ (N : Nat) (pre : List Nat), N < 2 ^ 32 → pre.length < N →
        tcpPacketRead de ⟨toLeBytes N ++ pre, .wouldBlock⟩ = .okNone) ∧
      (∀ (payload rest : List Nat) (e : ReadEnd),
        payload.length ≤ 2 ^ 32 - 1 → de payload = none →
        tcpPacketRead de ⟨toLeBytes payload.length ++ payload ++ rest, e⟩ =
          .ioErr "malformed payload") := by
  refine ⟨rfl, rfl, ?_, ?_⟩
  · intro N pre hN hpre
    unfold tcpPacketRead
    have h4 : headerSize ≤ (toLeBytes N ++ pre).length := by
      simp [toLeBytes, headerSize]
    rw [readExact, if_pos h4]
    have htake : (toLeBytes N ++ pre).take headerSize = toLeBytes N :=
      List.take_left (toLeBytes N) pre
    have hdrop : (toLeBytes N ++ pre).drop headerSize = pre :=
      List.drop_left (toLeBytes N) pre
    rw [htake, hdrop]
    simp only [fromLeBytes_toLeBytes _ hN]
    rw [readExact, if_neg (by simpa using Nat.not_le_of_lt hpre)]
  · intro payload rest e hlen hde
    have hlt : payload.length < 2 ^ 32 := by omega
    unfold tcpPacketRead
    have h4 : headerSize ≤ (toLeBytes payload.length ++ (payload ++ rest)).length := by
      simp [toLeBytes, headerSize]
    have htake : (toLeBytes payload.length ++ (payload ++ rest)).take headerSize =
        toLeBytes payload.length :=
      List.take_left (toLeBytes payload.length) (payload ++ rest)
    have hdrop : (toLeBytes payload.length ++ (payload ++ rest)).drop headerSize =
        payload ++ rest :=
      List.drop_left (toLeBytes payload.length) (payload ++ rest)
    rw [List.append_assoc, readExact, if_pos h4, htake, hdrop]
    simp only [fromLeBytes_toLeBytes _ hlt]
    rw [readExact, if_pos (by simp : payload.length ≤ (payload ++ rest).length),
      List.take_left, List.drop_left]
    simp [hde]

theorem c3_amended_outcomes_witness :
    tcpPacketRead deBool ⟨[3, 0, 0, 0, 1], .wouldBlock⟩ = .okNone ∧
      tcpPacketRead deBool ⟨[1, 0, 0, 0, 7], .eof⟩ =
        .ioErr "malformed payload" := by
  have h := c3_amended_outcomes deBool
  constructor
  · have := h.2.2.1 3 [1] (by decide) (by decide)
    simpa [toLeBytes] using this
  · have := h.2.2.2 [7] [] .eof (by decide) (by decide)
    simpa [toLeBytes] using this

/-- C4: in the server init loop, a received `Request` that does not match
the initialize type is answered — and the loop continues — with a response
whose id is the request's id and whose error has code `ServerErrorStart`
(source discriminant −32099), message `uninitialized channel`, and data
equal to the JSON encoding of the offending message. -/
theorem c4_uninitialized_reply (matchesReq : Request → Bool) (rq : Request)
    (h : matchesReq rq = false) :
    initializeStartStep matchesReq (.received (.req rq)) =
      .continueLoop (some
        { jsonrpc := "2.0", result := none,
          error := some ⟨.serverErrorStart, "uninitialized channel",
            some (Msg.req rq).toJson⟩,
          id := rq.id }) ∧
      ErrorCode.serverErrorStart.discriminant = -32099 := by
  refine ⟨?_, rfl⟩
  simp [initializeStartStep, h, Response.fromError, ErrorKind.intoError]

theorem c4_uninitialized_reply_witness :
    initializeStartStep (fun _ => false)
        (.received (.req ⟨"2.0", "foo_bar", .obj [], "x1"⟩)) =
      .continueLoop (some
        { jsonrpc := "2.0", result := none,
          error := some ⟨.serverErrorStart, "uninitialized channel",
            some (Msg.req ⟨"2.0", "foo_bar", .obj [], "x1"⟩).toJson⟩,
          id := "x1" }) :=
  (c4_uninitialized_reply (fun _ => false) ⟨"2.0", "foo_bar", .obj [], "x1"⟩
    rfl).1

/-- C5 counterexample: receiving a `Response` in the server init loop is NOT
ignored — at this concrete response the iteration does not continue the loop
but returns a `ServerErrorStart` error (the `_` arm of the match in
`initialize_start_while`). -/
theorem c5_response_not_ignored :
    (initializeStartStep (fun _ => false)
        (.received (.res ⟨"2.0", some (.obj []), none, "1"⟩))).isContinue =
      false ∧
    initializeStartStep (fun _ => false)
        (.received (.res ⟨"2.0", some (.obj []), none, "1"⟩)) =
      .retErr ⟨.serverErrorStart, "expected initialize request", none⟩ :=
  ⟨rfl, rfl⟩

/-- C5 amended: in `initialize_start_while`, a one-second receive timeout
continues the loop and a disconnected inbound queue returns the `Disconnect`
error, as claimed; but a received `Response` is not ignored — it makes the
function return a `ServerErrorStart` error (as do `Shutdown` and `Exit`
messages). -/
theorem c5_amended_init_loop (matchesReq : Request → Bool) :
    initializeStartStep matchesReq .timeout = .continueLoop none ∧
      initializeStartStep matchesReq .disconnected =
        .retErr ⟨.disconnect, "disconnected channel", none⟩ ∧
      (∀ r : Response, initializeStartStep matchesReq (.received (.res r)) =
        .retErr ⟨.serverErrorStart, "expected initialize request", none⟩) ∧
      (∀ b : Bool, initializeStartStep matchesReq (.received (.shutdown b)) =
        .retErr ⟨.serverErrorStart, "expected initialize request", none⟩) :=
  ⟨rfl, rfl, fun _ => rfl, fun _ => rfl⟩

/-- C6: `Connection::handle_shutdown` returns `Ok(false)` (sending nothing)
for every message that is neither `Shutdown` variant; for `Shutdown(false)`
it sends `Shutdown(true)` and waits up to 30 s on the inbound queue,
returning `Ok(true)` on `Exit` and a `ServerErrorEnd` error on any other
message, on timeout, or on disconnection; for `Shutdown(true)` it sends
`Exit` and returns `Ok(true)` without consulting the receive side at
all. -/
theorem c6_handle_shutdown (env : ShutdownEnv) (hsend : env.sendOk = true) :
    ((∀ rq, handleShutdown env (.req rq) = (.ok false, [])) ∧
      (∀ rs, handleShutdown env (.res rs) = (.ok false, [])) ∧
      (∀ id e, handleShutdown env (.err id e) = (.ok false, [])) ∧
      handleShutdown env .exitMsg = (.ok false, [])) ∧
    handleShutdown ⟨true, .received .exitMsg⟩ (.shutdown false) =
      (.ok true, [.shutdown true]) ∧
    (∀ m : Msg, m.isExit = false →
      handleShutdown ⟨true, .received m⟩ (.shutdown false) =
        (.error ⟨.serverErrorEnd, "unexpected message during shutdown", none⟩,
          [.shutdown true])) ∧
    handleShutdown ⟨true, .timeout⟩ (.shutdown false) =
      (.error ⟨.serverErrorEnd, "timed out waiting for exit notification", none⟩,
        [.shutdown true]) ∧
    handleShutdown ⟨true, .disconnected⟩ (.shutdown false) =
      (.error ⟨.serverErrorEnd, "channel disconnected waiting for exit notification",
        none⟩, [.shutdown true]) ∧
    handleShutdown env (.shutdown true) = (.ok true, [.exitMsg]) ∧
    ErrorCode.serverErrorEnd.discriminant = -32000 := by
  obtain ⟨sendOk, recv⟩ := env
  simp only at hsend
  subst hsend
  refine ⟨⟨fun rq => rfl, fun rs => rfl, fun id e => rfl, rfl⟩, rfl, ?_,
    rfl, rfl, rfl, rfl⟩
  intro m hm
  cases m <;> simp_all [handleShutdown, Msg.isExit, ErrorKind.intoError]

theorem c6_handle_shutdown_witness :
    handleShutdown ⟨true, .received (.shutdown false)⟩ (.shutdown false) =
      (.error ⟨.serverErrorEnd, "unexpected message during shutdown", none⟩,
        [.shutdown true]) ∧
    handleShutdown ⟨true, .timeout⟩ (.shutdown true) = (.ok true, [.exitMsg]) := by
  constructor
  · exact (c6_handle_shutdown ⟨true, .received (.shutdown false)⟩ rfl).2.2.1
      (.shutdown false) rfl
  · exact (c6_handle_shutdown ⟨true, .timeout⟩ rfl).2.2.2.2.2.1

/-- C7: deserializing a typed `Message<Rq,Rs>` attempts `Request` decoding
first and, on success, routes only through the request wrapper (yielding
`Message::Req`, or failing outright — the response path is never consulted);
only if `Request` decoding fails is `Response` decoding attempted, the
wrapper's inner result yielding `Message::Err` / `Message::Res`; if neither
envelope decodes, deserialization fails.  For wrappers built on
`RpcResponse::try_from_response`, the inner split is exactly "response
carries `error`" vs "response carries a decodable `result`". -/
theorem c7_deserialize_policy {Rq Rs : Type} (tryFromReq : Request → Option Rq)
    (tryFromRes : Response → Option (Except Error Rs)) :
    (∀ j req, Request.fromJson? j = some req →
      messageDeserialize tryFromReq tryFromRes j =
        (tryFromReq req).map (fun rq => .req req.id rq)) ∧
    (∀ j res e, Request.fromJson? j = none → Response.fromJson? j = some res →
      tryFromRes res = some (.error e) →
      messageDeserialize tryFromReq tryFromRes j = some (.err res.id e)) ∧
    (∀ j res rs, Request.fromJson? j = none → Response.fromJson? j = some res →
      tryFromRes res = some (.ok rs) →
      messageDeserialize tryFromReq tryFromRes j = some (.res res.id rs)) ∧
    (∀ j, Request.fromJson? j = none → Response.fromJson? j = none →
      messageDeserialize tryFromReq tryFromRes j = none) ∧
    (∀ (identity : String) (deRs : Json → Option Rs) (r : IdentifiedResponse)
        (e : Error), r.id = identity → r.res.error = some e →
      rpcTryFromResponse identity deRs r = .appErr e) ∧
    (∀ (identity : String) (deRs : Json → Option Rs) (r : IdentifiedResponse)
        (rs : Rs), r.id = identity → r.res.error = none →
      deRs (r.res.result.getD (Json.obj [])) = some rs →
      rpcTryFromResponse identity deRs r = .ok rs) := by
  refine ⟨?_, ?_, ?_, ?_, ?_, ?_⟩
  · intro j req hreq
    simp [messageDeserialize, hreq]
  · intro j res e hreq hres htr
    simp [messageDeserialize, hreq, hres, htr]
  · intro j res rs hreq hres htr
    simp [messageDeserialize, hreq, hres, htr]
  · intro j hreq hres
    simp [messageDeserialize, hreq, hres]
  · intro identity deRs r e hid herr
    simp [rpcTryFromResponse, hid, herr]
  · intro identity deRs r rs hid herr hde
    simp [rpcTryFromResponse, hid, herr, hde]

theorem c7_deserialize_policy_witness :
    messageDeserialize unitTryFromReq unitTryFromRes
        (.obj [("jsonrpc", .str "2.0"), ("result", .null),
          ("error", .obj [("code", .str "InternalError"),
            ("message", .str "boom"), ("data", .null)]),
          ("id", .str "2")]) =
      some (.err "2" ⟨.internalError, "boom", none⟩) ∧
    rpcTryFromResponse "init" (fun _ => (some () : Option Unit))
        ⟨"init", ⟨"2.0", none, some ⟨.internalError, "boom", none⟩, "2"⟩⟩ =
      .appErr ⟨.internalError, "boom", none⟩ := by
  constructor
  · exact (c7_deserialize_policy unitTryFromReq unitTryFromRes).2.1
      (.obj [("jsonrpc", .str "2.0"), ("result", .null),
        ("error", .obj [("code", .str "InternalError"),
          ("message", .str "boom"), ("data", .null)]),
        ("id", .str "2")])
      ⟨"2.0", none, some ⟨.internalError, "boom", none⟩, "2"⟩
      ⟨.internalError, "boom", none⟩ rfl rfl rfl
  · exact (c7_deserialize_policy unitTryFromReq unitTryFromRes).2.2.2.2.1
      "init" (fun _ => (some () : Option Unit))
      ⟨"init", ⟨"2.0", none, some ⟨.internalError, "boom", none⟩, "2"⟩⟩
      ⟨.internalError, "boom", none⟩ rfl rfl

/-- C8 (code evidence): serializing an `Error` emits the `code` member as
the variant-name STRING, not an integer — serde's derive ignores the
explicit discriminants declared on `ErrorCode`, so the emitted JSON
contradicts the source's own doc comment on the field ("This MUST be an
integer") and the spec's wire format; the declared discriminant −32700 never
reaches the wire. -/
theorem c8_error_code_serialized_as_string :
    Error.toJson ⟨.parseError, "", none⟩ =
      .obj [("code", .str "ParseError"), ("message", .str ""),
        ("data", .null)] ∧
    (Error.toJson ⟨.parseError, "", none⟩).getField? "code" =
      some (.str "ParseError") ∧
    ((Error.toJson ⟨.parseError, "", none⟩).getField? "code").map
      Json.isIntVal = some false ∧
    ErrorCode.parseError.discriminant = -32700 :=
  ⟨rfl, rfl, rfl, rfl⟩

/-- C9 counterexample: at a concrete decode failure the reader worker of
`make_reader` panics (the `unwrap`) rather than returning the error to the
joiner, and on a decoder `Ok(None)` (the conflated empty/disconnected
outcome) it neither sets the shutdown flag nor returns — it just keeps
looping. -/
theorem c9_reader_panics_not_returns :
    makeReaderStep (.fatal "malformed payload") = .panicked ∧
    (makeReaderStep (.fatal "malformed payload")).isReturnedErr = false ∧
    makeReaderStep .okNone = .looped false none ∧
    clientReaderStep (.fatal "malformed payload") = .panicked :=
  ⟨rfl, rfl, rfl, rfl⟩

/-- C9 amended: in the reader loops of `make_reader` (connection/io) and
`ClientConnection::reader_thread_logic`, a failed packet decode PANICS the
worker (the panic reaches the joiner through `join`, not an `Err` return);
a read that yields no message leaves the loop running with the shutdown
flag unchanged; `make_reader` sets the flag only when the message read is
`Exit`, and the client reader never sets it. -/
theorem c9_amended_reader_behavior :
    (∀ e, makeReaderStep (.fatal e) = .panicked) ∧
    makeReaderStep .okNone = .looped false none ∧
    (∀ m, makeReaderStep (.okSome m) = .looped m.isExit (some m)) ∧
    makeReaderStep (.okSome .exitMsg) = .looped true (some .exitMsg) ∧
    (∀ e, clientReaderStep (.fatal e) = .panicked) ∧
    clientReaderStep .okNone = .looped false none ∧
    (∀ m, clientReaderStep (.okSome m) = .looped false (some m)) :=
  ⟨fun _ => rfl, rfl, fun _ => rfl, rfl, fun _ => rfl, rfl, fun _ => rfl⟩

/-- C10 counterexample: the error return of `try_from_request` is also
reached for a request whose namespace IS recognized and whose
namespace/method DO match — it suffices that `try_from_json` rejects the
params — refuting "the error return path is reached only for requests with
a recognized namespace but mismatched namespace/method, or for methods not
containing the separator". -/
theorem c10_error_on_matching_method :
    splitOnce "_" "test_m" = some ("test", "m") ∧
    (fun s => if s = "test" then some () else none) "test" = some () ∧
    rpcTryFromRequest "_" (fun s => if s = "test" then some () else none)
        () "m" (fun _ => (none : Option Unit)) ⟨"2.0", "test_m", .obj [], "1"⟩ =
      .errReturn "try_from_json failed" := by
  refine ⟨?_, rfl, ?_⟩ <;> decide

/-- C10 amended: `try_from_request` panics (unwraps `None`) on every request
whose method splits on the separator but whose prefix is not accepted by
`Namespace::try_from_str`; the error return is reached exactly when the
method does not contain the separator, when the recognized namespace or the
method part mismatch, or when namespace and method match but `try_from_json`
rejects the params. -/
theorem c10_amended_try_from_request {NS T : Type} [DecidableEq NS]
    (sep : String) (nsTry : String → Option NS) (nsSelf : NS)
    (methodSelf : String) (tfj : Json → Option T) (req : Request) :
    (∀ nsStr methodStr, splitOnce sep req.method = some (nsStr, methodStr) →
      nsTry nsStr = none →
      rpcTryFromRequest sep nsTry nsSelf methodSelf tfj req = .panicked) ∧
    (splitOnce sep req.method = none →
      rpcTryFromRequest sep nsTry nsSelf methodSelf tfj req =
        .errReturn "Request method could not be split by separator") ∧
    (∀ nsStr methodStr ns,
      splitOnce sep req.method = some (nsStr, methodStr) →
      nsTry nsStr = some ns → (ns ≠ nsSelf ∨ methodStr ≠ methodSelf) →
      rpcTryFromRequest sep nsTry nsSelf methodSelf tfj req =
        .errReturn "namespace & method do not match expected") ∧
    (∀ nsStr, splitOnce sep req.method = some (nsStr, methodSelf) →
      nsTry nsStr = some nsSelf → tfj req.params = none →
      rpcTryFromRequest sep nsTry nsSelf methodSelf tfj req =
        .errReturn "try_from_json failed") ∧
    ((rpcTryFromRequest sep nsTry nsSelf methodSelf tfj req).isErrReturn =
        true →
      splitOnce sep req.method = none ∨
        (∃ nsStr methodStr ns,
          splitOnce sep req.method = some (nsStr, methodStr) ∧
          nsTry nsStr = some ns ∧
          (ns ≠ nsSelf ∨ methodStr ≠ methodSelf)) ∨
        (∃ nsStr, splitOnce sep req.method = some (nsStr, methodSelf) ∧
          nsTry nsStr = some nsSelf ∧ tfj req.params = none)) := by
  refine ⟨?_, ?_, ?_, ?_, ?_⟩
  · intro nsStr methodStr hsplit hns
    simp [rpcTryFromRequest, hsplit, hns]
  · intro hsplit
    simp [rpcTryFromRequest, hsplit]
  · intro nsStr methodStr ns hsplit hns hmis
    rw [rpcTryFromRequest, hsplit]
    simp only [hns]
    rw [if_pos hmis]
  · intro nsStr hsplit hns htfj
    rw [rpcTryFromRequest, hsplit]
    simp only [hns]
    rw [if_neg (by simp), htfj]
  · intro herr
    rcases hsplit : splitOnce sep req.method with _ | ⟨nsStr, methodStr⟩
    · exact Or.inl rfl
    · rcases hns : nsTry nsStr with _ | ns
      · rw [rpcTryFromRequest, hsplit] at herr
        simp [hns, TryFromRequestOutcome.isErrReturn] at herr
      · by_cases hmis : ns ≠ nsSelf ∨ methodStr ≠ methodSelf
        · exact Or.inr (Or.inl ⟨nsStr, methodStr, ns, rfl, hns, hmis⟩)
        · push_neg at hmis
          obtain ⟨hns_eq, hm_eq⟩ := hmis
          subst hns_eq
          subst hm_eq
          rcases htfj : tfj req.params with _ | t
          · exact Or.inr (Or.inr ⟨nsStr, rfl, hns, rfl⟩)
          · rw [rpcTryFromRequest, hsplit] at herr
            simp [hns, htfj, TryFromRequestOutcome.isErrReturn] at herr

theorem c10_amended_try_from_request_witness :
    rpcTryFromRequest "_" (fun s => if s = "test" then some () else none)
        () "m" (fun _ => some 0) ⟨"2.0", "bad_m", .obj [], "1"⟩ =
      .panicked ∧
    rpcTryFromRequest "_" (fun s => if s = "test" then some () else none)
        () "m" (fun _ => some 0) ⟨"2.0", "nosep", .obj [], "1"⟩ =
      .errReturn "Request method could not be split by separator" := by
  constructor
  · exact (c10_amended_try_from_request "_"
      (fun s => if s = "test" then some () else none) () "m"
      (fun _ => some (0 : Nat)) ⟨"2.0", "bad_m", .obj [], "1"⟩).1
      "bad" "m" (by decide) (by decide)
  · exact (c10_amended_try_from_request "_"
      (fun s => if s = "test" then some () else none) () "m"
      (fun _ => some (0 : Nat)) ⟨"2.0", "nosep", .obj [], "1"⟩).2.1
      (by decide)

end Seraphic
